import Mathlib

/-!
Verification development for the reports package: a shallow embedding of
definitions.py (the content model and tree utilities) and html_engine.py
(the HTML rendering engine and its chart composition), with theorems about
the embedded functions.

Conventions of the embedding:
- Python floats are modelled as rationals; the embedded code only compares
  them (no rounding-sensitive arithmetic is relied upon by any theorem).
- Python exceptions are modelled by the PyError type; an operation that can
  raise returns Except PyError.
- pandas, bokeh, jinja2 and the package template files are external
  collaborators; where their behaviour is observable by the embedded code it
  is modelled explicitly next to the definition that uses it.
-/

namespace Reports

/-- Errors raised by the embedded code.  Python distinguishes exception
classes; the embedded code raises plain Exception values with a message
(definitions.py has no dedicated error classes), assertion failures
(AssertionError), list index failures (IndexError), dict lookup failures
(KeyError) and NotImplementedError. -/
inductive PyError where
  | exception (msg : String)
  | assertionError
  | indexError
  | keyError (key : String)
  | notImplementedError
deriving DecidableEq, Repr

/-- Python class name of a raised error value. -/
def PyError.className : PyError → String
  | .exception _ => "Exception"
  | .assertionError => "AssertionError"
  | .indexError => "IndexError"
  | .keyError _ => "KeyError"
  | .notImplementedError => "NotImplementedError"

/-- An x value of a DataSeries: `x: Sequence[float | str]` in
definitions.py. -/
inductive XVal where
  | num (v : ℚ)
  | str (s : String)
deriving DecidableEq, Repr

/-- isinstance(v, numbers.Number) on an x value. -/
def XVal.isNum : XVal → Bool
  | .num _ => true
  | .str _ => false

/-- str(v) on an x value.  Python prints floats with its own formatting;
no theorem depends on the exact digits of the numeric case. -/
def XVal.toStr : XVal → String
  | .num v => toString v
  | .str s => s

/-- Comparison used to model Python sorted() over x values.  In the source
the sorted sets are homogeneous (all strings, or all numbers); the model
totalises the order by putting numbers before strings. -/
def XVal.le : XVal → XVal → Bool
  | .num a, .num b => decide (a ≤ b)
  | .num _, .str _ => true
  | .str _, .num _ => false
  | .str a, .str b => decide (a ≤ b)

/-- DataSeries from definitions.py: a single data series of a chart. -/
structure DataSeries where
  title : Option String := none
  x : List XVal := []
  y : List ℚ := []
  color : Option String := none
  line : Bool := true
  markers : Bool := false
deriving DecidableEq, Repr

instance : Inhabited DataSeries := ⟨{}⟩

/-- Chart annotations: SlopeAnnotation carries slope, intercept and line
styling; base models an instance of the base class (rejected by
HtmlEngine with NotImplementedError). -/
inductive Annot where
  | slope (intercept slope : ℚ) (color dash : Option String) (lineWidth : Option ℚ)
  | base
deriving DecidableEq, Repr

/-- Chart size hints from Chart (definitions.py) plus an explicit
(width, height) pair. -/
inductive ChartSize where
  | small
  | medium
  | large
  | wide
  | auto
  | explicit (w h : Int)
deriving DecidableEq, Repr

/-- HtmlEngine._chart_size together with the CHART_SIZE table
(html_engine.py lines 25-30).  The table has no entry for the auto hint,
so CHART_SIZE[size] raises KeyError for it. -/
def chartSize : ChartSize → Except PyError (Int × Int)
  | .small => .ok (200, 200)
  | .medium => .ok (500, 350)
  | .large => .ok (700, 450)
  | .wide => .ok (1000, 350)
  | .auto => .error (.keyError "auto")
  | .explicit w h => .ok (w, h)

/-- Fields shared by the XYChart variants (definitions.py XYChart):
title, series, size hint, axis titles, annotations.  In the source
annotations defaults to None; None and the empty list have the same
observable behaviour (the engine guards with Python truthiness), so the
model uses a plain list. -/
structure XYSpec where
  title : Option String := none
  series : List DataSeries := []
  size : ChartSize := .medium
  xAxisTitle : Option String := none
  yAxisTitle : Option String := none
  annots : List Annot := []
deriving DecidableEq, Repr

/-- Table from definitions.py.  The wrapped pandas DataFrame and the
column_style directive belong to the external pandas / table formatter
collaborators and are not inspected by any claim; the renderable flags are
kept. -/
structure TableSpec where
  title : Option String := none
  index : Bool := false
  header : Bool := true
  interactive : Bool := true
deriving DecidableEq, Repr

/-- One row of the OHLC data block of a CandlestickChart.  The open column
is named opn because open is a Lean keyword. -/
structure OHLCRow where
  opn : ℚ
  high : ℚ
  low : ℚ
  close : ℚ
deriving DecidableEq, Repr

/-- The pandas DataFrame handed to CandlestickChart: ordered rows with
open/high/low/close, the index labels (time or category), and an optional
volume column. -/
structure OHLCFrame where
  rows : List OHLCRow := []
  labels : List String := []
  volume : Option (List ℚ) := none
deriving DecidableEq, Repr

mutual

/-- The content model of definitions.py as a closed variant type.  Each
constructor is one runtime class: contentBase is a bare Content() instance
and chartBase a bare Chart() instance (both classes are instantiable
dataclasses in the source, and the dispatcher has dedicated failure paths
for them).  Section is rendered sect because section is a Lean keyword.
Box, Section and Report form the isinstance Box family; Grid is a
Container but not a Box. -/
inductive Content where
  | contentBase
  | box (orientation : String) (spacing : Int) (children : CList)
  | grid (columns : Int) (children : CList)
  | sect (title : String) (level : Nat) (orientation : String) (children : CList)
  | report (title : String) (level : Nat) (children : CList)
  | table (spec : TableSpec)
  | text (txt : String) (escape : Bool)
  | chartBase (title : Option String) (series : List DataSeries) (size : ChartSize)
  | lineChart (spec : XYSpec)
  | barChart (spec : XYSpec)
  | comboChart (spec : XYSpec) (bars : List DataSeries) (lines : List DataSeries)
  | candlestickChart (spec : XYSpec) (data : OHLCFrame)
  | chartGroup (charts : CList)

/-- Ordered child list of a container (the Python list stored in
Container.content). -/
inductive CList where
  | nil
  | cons (c : Content) (cs : CList)

end

/-- Convert a child list to a Lean list (ordered as inserted). -/
def CList.toList : CList → List Content
  | .nil => []
  | .cons c cs => c :: cs.toList

/-- Children pushed by the Box-guarded traversals: both
Container.descendants and Report.update_levels extend their worklist with
content.content only when isinstance(content, Box); Box, Section and
Report are Boxes, Grid is not. -/
def boxChildren : Content → CList
  | .box _ _ cs => cs
  | .sect _ _ _ cs => cs
  | .report _ _ cs => cs
  | _ => .nil

mutual

/-- Node weight used as the termination measure of the worklist
traversals: one per node plus the weight of the Box-traversable children. -/
def Content.weight : Content → Nat
  | .box _ _ cs => 1 + CList.weightSum cs
  | .sect _ _ _ cs => 1 + CList.weightSum cs
  | .report _ _ cs => 1 + CList.weightSum cs
  | _ => 1

/-- Total weight of a child list. -/
def CList.weightSum : CList → Nat
  | .nil => 0
  | .cons c cs => Content.weight c + CList.weightSum cs

end

/-- Total weight of a worklist. -/
def stackWeight : List Content → Nat
  | [] => 0
  | c :: rest => c.weight + stackWeight rest

/-- Termination fact for descLoop: stackWeight distributes over append. -/
def stackWeight_append : ∀ (a b : List Content),
    stackWeight (a ++ b) = stackWeight a + stackWeight b := by
  intro a b
  induction a with
  | nil => simp [stackWeight]
  | cons c r ih => simp [stackWeight, ih]; omega

/-- Termination fact for descLoop: stackWeight is invariant under reverse. -/
def stackWeight_reverse : ∀ (a : List Content),
    stackWeight a.reverse = stackWeight a := by
  intro a
  induction a with
  | nil => rfl
  | cons c r ih =>
      simp [List.reverse_cons, stackWeight_append, stackWeight, ih]
      omega

/-- Termination fact for descLoop: stackWeight of a converted child list is
its weightSum. -/
def stackWeight_toList : ∀ (cs : CList), stackWeight cs.toList = cs.weightSum
  | .nil => rfl
  | .cons c cs => by
      simp [CList.toList, stackWeight, CList.weightSum, stackWeight_toList cs]

/-- Termination fact for descLoop: the pushed children weigh less than the
popped node. -/
def boxChildren_weightSum_lt : ∀ (c : Content),
    (boxChildren c).weightSum < c.weight := by
  intro c
  cases c <;> simp [boxChildren, Content.weight, CList.weightSum]

/-- Container.descendants (definitions.py lines 27-38) as the worklist it
runs: todo starts as the singleton self; each step pops the top of the
stack, yields it, and pushes its children when it is a Box.  Python pops
from the end of the list and appends children in order, so the top of the
stack is the last appended child; the Lean list keeps the stack top at the
head, hence the reversed append. -/
def descLoop : List Content → List Content
  | [] => []
  | c :: rest => c :: descLoop ((boxChildren c).toList.reverse ++ rest)
termination_by l => stackWeight l
decreasing_by
  simp only [stackWeight_append, stackWeight_reverse, stackWeight_toList, stackWeight]
  have := boxChildren_weightSum_lt c
  omega

/-- The sequence of nodes yielded by Container.descendants. -/
def descendants (c : Content) : List Content := descLoop [c]

mutual

/-- Depth-first pre-order traversal that visits the Box-traversable
children of each node in reverse insertion order.  Used to characterise
descendants. -/
def preorderRev : Content → List Content
  | .box o s cs => .box o s cs :: preorderRTL cs
  | .sect t l o cs => .sect t l o cs :: preorderRTL cs
  | .report t l cs => .report t l cs :: preorderRTL cs
  | c => [c]

/-- Traverse a child list right to left, concatenating the pre-order
visits of the members. -/
def preorderRTL : CList → List Content
  | .nil => []
  | .cons c cs => preorderRTL cs ++ preorderRev c

end

mutual

/-- Number of nodes reachable from a node through Box-traversable
children (counting the node itself). -/
def boxSize : Content → Nat
  | .box _ _ cs => 1 + boxSizeList cs
  | .sect _ _ _ cs => 1 + boxSizeList cs
  | .report _ _ cs => 1 + boxSizeList cs
  | _ => 1

/-- Total boxSize of a child list. -/
def boxSizeList : CList → Nat
  | .nil => 0
  | .cons c cs => boxSize c + boxSizeList cs

end

mutual

/-- Report.update_levels (definitions.py lines 112-126) made structural:
the worklist assigns each popped node exactly once, so the final tree is
the structural recursion that sets the level of every Section (and Report)
to the running counter, increments the counter below a Section, and
recurses into children only for the Box family; Grid subtrees are never
pushed and stay untouched. -/
def assignLevels : Content → Nat → Content
  | .sect t _ o cs, l => .sect t l o (assignLevelsList cs (l + 1))
  | .report t _ cs, l => .report t l (assignLevelsList cs (l + 1))
  | .box o s cs, l => .box o s (assignLevelsList cs l)
  | c, _ => c

/-- Assign levels to every member of a child list. -/
def assignLevelsList : CList → Nat → CList
  | .nil, _ => .nil
  | .cons c cs, l => .cons (assignLevels c l) (assignLevelsList cs l)

end

/-- Report.update_levels run from the root: the worklist starts at
[(self, 0)]. -/
def updateLevels (c : Content) : Content := assignLevels c 0

mutual

/-- Erase every level field in the tree (used to state that a
transformation touches nothing but levels). -/
def stripLevels : Content → Content
  | .sect t _ o cs => .sect t 0 o (stripLevelsList cs)
  | .report t _ cs => .report t 0 (stripLevelsList cs)
  | .box o s cs => .box o s (stripLevelsList cs)
  | .grid n cs => .grid n (stripLevelsList cs)
  | .chartGroup cs => .chartGroup (stripLevelsList cs)
  | c => c

/-- stripLevels over a child list. -/
def stripLevelsList : CList → CList
  | .nil => .nil
  | .cons c cs => .cons (stripLevels c) (stripLevelsList cs)

end

mutual

/-- Checks that every Section reachable from the node through Box
containers carries a level equal to its Section-ancestor depth (the
counter k), with no constraint on subtrees below non-Box containers. -/
def levelsAtBoxDepth : Content → Nat → Bool
  | .sect _ lvl _ cs, k => (lvl == k) && levelsAtBoxDepthList cs (k + 1)
  | .report _ lvl cs, k => (lvl == k) && levelsAtBoxDepthList cs (k + 1)
  | .box _ _ cs, k => levelsAtBoxDepthList cs k
  | _, _ => true

/-- levelsAtBoxDepth over a child list. -/
def levelsAtBoxDepthList : CList → Nat → Bool
  | .nil, _ => true
  | .cons c cs, k => levelsAtBoxDepth c k && levelsAtBoxDepthList cs k

end

mutual

/-- Formalisation of the claimed level property: every Section nested
inside k ancestor Sections has level exactly k, where nesting passes
through every container (Box and Grid alike) and non-Section containers do
not increment the counter. -/
def levelsAtSectionDepth : Content → Nat → Bool
  | .sect _ lvl _ cs, k => (lvl == k) && levelsAtSectionDepthList cs (k + 1)
  | .report _ lvl cs, k => (lvl == k) && levelsAtSectionDepthList cs (k + 1)
  | .box _ _ cs, k => levelsAtSectionDepthList cs k
  | .grid _ cs, k => levelsAtSectionDepthList cs k
  | _, _ => true

/-- levelsAtSectionDepth over a child list. -/
def levelsAtSectionDepthList : CList → Nat → Bool
  | .nil, _ => true
  | .cons c cs, k => levelsAtSectionDepth c k && levelsAtSectionDepthList cs k

end

/-- Python truthiness of an optional string (None and the empty string are
falsy). -/
def truthyStr : Option String → Bool
  | some s => !s.isEmpty
  | none => false

/-- The fixed color palette bokeh.palettes.Category10_10 imported by
html_engine.py. -/
def palette : List String :=
  ["#1f77b4", "#ff7f0e", "#2ca02c", "#d62728", "#9467bd",
   "#8c564b", "#e377c2", "#7f7f7f", "#bcbd22", "#17becf"]

/-- itertools.cycle(palette) at cursor position k. -/
def paletteColor (k : Nat) : String := palette.getD (k % 10) ""

/-- First-appearance deduplication with an accumulator of already seen
values (models building a list while skipping values already present, and
feeds the set-union modelling below). -/
def dedupGo {α : Type} [DecidableEq α] (seen : List α) : List α → List α
  | [] => []
  | a :: r => if a ∈ seen then dedupGo seen r else a :: dedupGo (a :: seen) r

/-- Keep the first appearance of every value of the list. -/
def dedupFirst {α : Type} [DecidableEq α] (l : List α) : List α := dedupGo [] l

/-- Insert into a sorted list (helper of insertionSort). -/
def insertLe {α : Type} (le : α → α → Bool) (a : α) : List α → List α
  | [] => [a]
  | b :: r => if le a b then a :: b :: r else b :: insertLe le a r

/-- Ascending sort, modelling Python sorted(). -/
def insertionSort {α : Type} (le : α → α → Bool) : List α → List α
  | [] => []
  | a :: r => insertLe le a (insertionSort le r)

/-- Concatenate the x values of a list of series in order. -/
def flatXs : List DataSeries → List XVal
  | [] => []
  | s :: r => s.x ++ flatXs r

/-- Concatenate a list of string lists in order. -/
def joinAll : List (List String) → List String
  | [] => []
  | l :: r => l ++ joinAll r

/-- String comparison for Python sorted() over strings. -/
def strLe (a b : String) : Bool := decide (a ≤ b)

/-- The bokeh figure state produced by HtmlEngine._render_line_chart, as
far as the embedded code observes or mutates it: size, categorical x
factors, slope layouts, the color handed to each series, the legend entry
labels, the legend visibility and location, and the axis labels.  A bokeh
figure starts with no legend; a Legend object appears when the first glyph
carrying a legend_label is added, and fig.legend has length one from then
on, so legendEntries tracks the labels added and an empty list means
len(fig.legend) == 0.  The legend default location in bokeh is top_right
and legends start visible. -/
structure LineFigure where
  title : Option String := none
  width : Int := 0
  height : Int := 0
  xFactors : Option (List XVal) := none
  slopes : List Annot := []
  seriesColors : List String := []
  legendEntries : List String := []
  legendVisible : Bool := true
  legendLocation : String := "top_right"
  xAxisLabel : Option String := none
  yAxisLabel : Option String := none
deriving DecidableEq, Repr

/-- HtmlEngine._render_annotations: SlopeAnnotation values become Slope
layouts, anything else raises NotImplementedError. -/
def processAnnots : List Annot → Except PyError (List Annot)
  | [] => .ok []
  | .slope i sl c d w :: r =>
      match processAnnots r with
      | .error e => .error e
      | .ok rest => .ok (.slope i sl c d w :: rest)
  | .base :: _ => .error .notImplementedError

/-- The legend entry contributed by one series: glyphs receive a
legend_label only when the title is truthy (html_engine.py line 277 uses
`if s.title`). -/
def entryOf (s : DataSeries) : List String :=
  if truthyStr s.title then [s.title.getD ""] else []

/-- The per-series loop of HtmlEngine._render_line_chart (lines 273-284):
the palette cursor yields the next color only when the series has no
explicit color, the legend label is attached for truthy titles, and
`assert s.line or s.markers` fails with AssertionError.  The color is
drawn before the assert, exactly as in the source.  Returns the final
cursor, the colors in series order, and the legend labels in series
order. -/
def processSeries : List DataSeries → Nat → Except PyError (Nat × List String × List String)
  | [], k => .ok (k, [], [])
  | s :: rest, k =>
      let pick : String × Nat :=
        match s.color with
        | some c => (c, k)
        | none => (paletteColor k, k + 1)
      if s.line || s.markers then
        match processSeries rest pick.2 with
        | .error e => .error e
        | .ok (kf, cs, es) => .ok (kf, pick.1 :: cs, entryOf s ++ es)
      else .error .assertionError

/-- Python truthiness guard used for the axis titles
(`if obj.x_axis_title:` sets the label only for truthy strings). -/
def axisOpt (t : Option String) : Option String := if truthyStr t then t else none

/-- Trend test of html_engine.py line 296:
`len(obj.series) and len(obj.series[0].y) and obj.series[0].y[-1] > obj.series[0].y[0]`. -/
def trendUpL (series : List DataSeries) : Bool :=
  !series.isEmpty && !(series.headD default).y.isEmpty &&
    decide ((series.headD default).y.headD 0 < (series.headD default).y.getLastD 0)

/-- The legend block at the end of HtmlEngine._render_line_chart (lines
291-297): when the chart has at most one series and a legend exists it is
hidden; otherwise, when some series title is not None and the first
series has a nonempty y whose last value exceeds its first, the legend
location becomes bottom_right.  fig.legend.location assigns through the
bokeh splat list, which broadcasts over its members: with no legend object
the assignment is a no-op, hence the emptiness guard on the location
update. -/
def lineLegendStep (series : List DataSeries) (fig : LineFigure) : LineFigure :=
  if decide (series.length ≤ 1) && !fig.legendEntries.isEmpty then
    { fig with legendVisible := false }
  else if series.any (·.title.isSome) then
    if trendUpL series && !fig.legendEntries.isEmpty then
      { fig with legendLocation := "bottom_right" }
    else fig
  else fig

/-- HtmlEngine._render_line_chart (lines 253-260): the categorical x range
is computed when the first series has a non-numeric first x value, as the
sorted union of the x value sets of all series. -/
def lineFactors (obj : XYSpec) : Option (List XVal) :=
  match obj.series with
  | [] => none
  | s0 :: _ =>
    match s0.x with
    | [] => none
    | x0 :: _ =>
      if x0.isNum then none
      else some (insertionSort XVal.le (dedupFirst (flatXs obj.series)))

/-- HtmlEngine._render_line_chart continued: figure creation (raising
KeyError for the auto size hint), annotation rendering, the series loop,
the axis labels, and the closing legend block, in source order. -/
def renderLineChart (obj : XYSpec) : Except PyError LineFigure :=
  match chartSize obj.size with
  | .error e => .error e
  | .ok (w, h) =>
    match processAnnots obj.annots with
    | .error e => .error e
    | .ok slopes =>
      match processSeries obj.series 0 with
      | .error e => .error e
      | .ok (_, colors, entries) =>
        .ok (lineLegendStep obj.series
          { title := obj.title, width := w, height := h, xFactors := lineFactors obj,
            slopes := slopes, seriesColors := colors, legendEntries := entries,
            xAxisLabel := axisOpt obj.xAxisTitle, yAxisLabel := axisOpt obj.yAxisTitle })

/-- The bokeh figure state produced by HtmlEngine._render_bar_chart. -/
structure BarFigure where
  title : Option String := none
  width : Int := 0
  height : Int := 0
  xRange : List String := []
  seriesColors : List String := []
  legendEntries : List String := []
  legendVisible : Bool := true
deriving DecidableEq, Repr

/-- The per-series loop of HtmlEngine._render_bar_chart (lines 323-328):
next(colors) is evaluated only when the series has no explicit color (the
conditional expression short-circuits), and there is no line/markers
assert.  The external pyutils.bokehutils.bars helper receives
legend_label=s.title; it is modelled as registering one legend entry per
series with a truthy title. -/
def processBarSeries : List DataSeries → Nat → Nat × List String × List String
  | [], k => (k, [], [])
  | s :: rest, k =>
      let pick : String × Nat :=
        match s.color with
        | some c => (c, k)
        | none => (paletteColor k, k + 1)
      let r := processBarSeries rest pick.2
      (r.1, pick.1 :: r.2.1, entryOf s ++ r.2.2)

/-- The categorical x range of a bar chart: the source builds a pandas
DataFrame keyed by the str() of each series x values; pandas keeps the
index order when all per-series indexes are equal and otherwise aligns on
their sorted union. -/
def barXRange (series : List DataSeries) : List String :=
  let xs := series.map (fun s => s.x.map XVal.toStr)
  match xs with
  | [] => []
  | x0 :: rest =>
    if rest.all (fun l => l == x0) then x0
    else insertionSort strLe (dedupFirst (joinAll xs))

/-- HtmlEngine._render_bar_chart (lines 301-338).  The closing legend
block is `if len(obj.series) <= 1: fig.legend[0].visible = False` with no
guard on len(fig.legend): when no legend entry was created the empty
legend list is indexed and IndexError is raised. -/
def renderBarChart (obj : XYSpec) : Except PyError BarFigure :=
  match chartSize obj.size with
  | .error e => .error e
  | .ok (w, h) =>
    let st := processBarSeries obj.series 0
    let fig : BarFigure :=
      { title := obj.title, width := w, height := h, xRange := barXRange obj.series,
        seriesColors := st.2.1, legendEntries := st.2.2 }
    if obj.series.length ≤ 1 then
      if fig.legendEntries.isEmpty then .error .indexError
      else .ok { fig with legendVisible := false }
    else .ok fig

/-- The bokeh figure state produced by HtmlEngine._render_combo_chart. -/
structure ComboFigure where
  title : Option String := none
  width : Int := 0
  height : Int := 0
  xRange : List String := []
  barColors : List String := []
  lineColors : List String := []
  legendEntries : List String := []
  legendVisible : Bool := true
deriving DecidableEq, Repr

/-- The line-series loop of HtmlEngine._render_combo_chart (lines
451-455): `color = next(colors)` runs unconditionally, so every line
series consumes the next palette color and an explicit series color is
never consulted. -/
def processComboLines : List DataSeries → Nat → List String × List String
  | [], _ => ([], [])
  | s :: rest, k =>
      let r := processComboLines rest (k + 1)
      (paletteColor k :: r.1, entryOf s ++ r.2)

/-- The categorical x range of a combo chart (lines 423-428): first
appearance of str(v), iterating the line series before the bar series. -/
def comboXRange (bars lines : List DataSeries) : List String :=
  dedupFirst (joinAll ((lines ++ bars).map (fun s => s.x.map XVal.toStr)))

/-- HtmlEngine._render_combo_chart (lines 415-461).  One palette cycle is
shared: the bar loop advances it only for bars without an explicit color,
then the line loop continues from that cursor unconditionally.  The
closing legend block indexes fig.legend[0] without a length guard, so
when both lists have at most one series and no legend entry exists an
IndexError is raised. -/
def renderComboChart (obj : XYSpec) (bars lines : List DataSeries) :
    Except PyError ComboFigure :=
  match chartSize obj.size with
  | .error e => .error e
  | .ok (w, h) =>
    let bst := processBarSeries bars 0
    let lst := processComboLines lines bst.1
    let fig : ComboFigure :=
      { title := obj.title, width := w, height := h, xRange := comboXRange bars lines,
        barColors := bst.2.1, lineColors := lst.1, legendEntries := bst.2.2 ++ lst.2 }
    if lines.length ≤ 1 && bars.length ≤ 1 then
      if fig.legendEntries.isEmpty then .error .indexError
      else .ok { fig with legendVisible := false }
    else .ok fig

/-- Largest value of a list (pandas Series.max over a nonempty column;
the callers guard against the empty case). -/
def listMax : List ℚ → ℚ
  | [] => 0
  | h :: t => t.foldl max h

/-- Smallest value of a list. -/
def listMin : List ℚ → ℚ
  | [] => 0
  | h :: t => t.foldl min h

/-- The bokeh figure state produced by
HtmlEngine._render_candlestick_chart: the wick segments (x, high, x, low),
the candle bodies (vbar top/bottom/color per dense index), the index
labels retained for the hover tooltip and the axis tick formatter, and the
optional explicit y range plus volume overlay. -/
structure CandleFigure where
  title : Option String := none
  width : Int := 0
  height : Int := 0
  xs : List Nat := []
  wickX : List Nat := []
  wickTop : List ℚ := []
  wickBottom : List ℚ := []
  tops : List ℚ := []
  bottoms : List ℚ := []
  colors : List String := []
  tooltipTimes : List String := []
  tickLabels : List String := []
  yRange : Option (ℚ × ℚ) := none
  volumeRange : Option (ℚ × ℚ) := none
  volumeTops : List ℚ := []
deriving DecidableEq, Repr

/-- HtmlEngine._render_candlestick_chart (lines 340-413).  green is the
elementwise close >= open mask; colors starts all red and the mask
positions are overwritten with green (modelled elementwise by zipWith);
top and bottom are numpy.maximum/minimum of the open and close columns;
the segment runs from high down to low at the same dense index; x is
numpy.arange(n); the index labels feed only the tooltip time column and
the CustomJS tick formatter.  When a volume column is present and not all
zero the primary y range is fixed to the 5 percent padded low/high window
and a secondary range [0, 5 * max volume] carries the volume bars. -/
def renderCandlestick (obj : XYSpec) (data : OHLCFrame) : Except PyError CandleFigure :=
  match chartSize obj.size with
  | .error e => .error e
  | .ok (w, h) =>
    let rows := data.rows
    let n := rows.length
    let greenMask := rows.map (fun r => decide (r.opn ≤ r.close))
    let baseFig : CandleFigure :=
      { title := obj.title, width := w, height := h,
        xs := List.range n, wickX := List.range n,
        wickTop := rows.map (·.high), wickBottom := rows.map (·.low),
        tops := List.zipWith max (rows.map (·.opn)) (rows.map (·.close)),
        bottoms := List.zipWith min (rows.map (·.opn)) (rows.map (·.close)),
        colors := List.zipWith (fun g c => if g then "#00AA00" else c)
          greenMask (List.replicate n "#FF0000"),
        tooltipTimes := data.labels, tickLabels := data.labels }
    match data.volume with
    | none => .ok baseFig
    | some vs =>
      if vs.any (fun v => decide (v ≠ 0)) then
        let top := listMax (rows.map (·.high))
        let bot := listMin (rows.map (·.low))
        .ok { baseFig with
          yRange := some ((105 / 100) * bot - (5 / 100) * top,
                          (105 / 100) * top - (5 / 100) * bot),
          volumeRange := some (0, listMax vs * 5),
          volumeTops := vs }
      else .ok baseFig

/-- Python class name of the runtime variant of a content value, as it
appears inside str(type(obj)). -/
def typeName : Content → String
  | .contentBase => "Content"
  | .box _ _ _ => "Box"
  | .grid _ _ => "Grid"
  | .sect _ _ _ _ => "Section"
  | .report _ _ _ => "Report"
  | .table _ => "Table"
  | .text _ _ => "Text"
  | .chartBase _ _ _ => "Chart"
  | .lineChart _ => "LineChart"
  | .barChart _ => "BarChart"
  | .comboChart _ _ _ => "ComboChart"
  | .candlestickChart _ _ => "CandlestickChart"
  | .chartGroup _ => "ChartGroup"

/-- Modelled from the spec: markupsafe.escape is an external collaborator;
the model escapes the three basic HTML metacharacters. -/
def escapeHtml (s : String) : String :=
  ((s.replace "&" "&amp;").replace "<" "&lt;").replace ">" "&gt;"

/-- Modelled from the spec: the pandas styler and the jspreadsheet widget
markup of _render_table are external table formatter collaborators; the
model keeps the interactive/static split and the title. -/
def tableHtml (t : TableSpec) : String :=
  (if t.interactive then "[interactive-table " else "[static-table ") ++
    (t.title.getD "") ++ "]"

/-- Modelled from the spec: bokeh.embed.file_html renders a figure into an
opaque embeddable fragment. -/
def figHtml : String := "[bokeh-html]"

/-- Modelled from the spec: templates/style.html is package data read from
disk and prepended when rendering a non-Report root. -/
def stylesHtml : String := "[styles]"

/-- HtmlEngine._render_chart with as_string False, for chart-group
members: the renderers dict is keyed by the exact runtime type and holds
only BarChart, LineChart, ComboChart and CandlestickChart; every other
type raises Exception with message Unknown chart type. -/
def renderChartFig : Content → Except PyError Unit
  | .lineChart sp => (renderLineChart sp).map (fun _ => ())
  | .barChart sp => (renderBarChart sp).map (fun _ => ())
  | .comboChart sp bs ls => (renderComboChart sp bs ls).map (fun _ => ())
  | .candlestickChart sp d => (renderCandlestick sp d).map (fun _ => ())
  | _ => .error (.exception "Unknown chart type")

/-- HtmlEngine._render_chart_group: render every member chart, then link
the x ranges and the crosshair (bokeh figure state, not tree state) and
embed the grid. -/
def renderGroupMembers : CList → Except PyError Unit
  | .nil => .ok ()
  | .cons c cs =>
      match renderChartFig c with
      | .error e => .error e
      | .ok _ => renderGroupMembers cs

mutual

/-- HtmlEngine._render (lines 71-96): a Report renders box style at level
0 and section style otherwise; any Chart instance goes through
_render_chart, whose renderers dict rejects the base Chart type with
Unknown chart type; the obj_map covers Section, Box, Grid, Table, Text
and ChartGroup by exact type; anything else raises Exception with message
Unknown content type naming the type.  The box, section and grid template
bodies are modelled from the spec (the jinja2 templates are package data):
each renders its children recursively through the render helper and wraps
them in a marker. -/
def renderContent : Content → Except PyError String
  | .report t lvl cs =>
      if lvl == 0 then
        match renderCList cs with
        | .error e => .error e
        | .ok b => .ok ("<box>" ++ b ++ "</box>")
      else
        match renderCList cs with
        | .error e => .error e
        | .ok b => .ok ("<section level=" ++ toString lvl ++ "><h>" ++ t ++ "</h>" ++ b ++ "</section>")
  | .sect t lvl _ cs =>
      match renderCList cs with
      | .error e => .error e
      | .ok b => .ok ("<section level=" ++ toString lvl ++ "><h>" ++ t ++ "</h>" ++ b ++ "</section>")
  | .box _ _ cs =>
      match renderCList cs with
      | .error e => .error e
      | .ok b => .ok ("<box>" ++ b ++ "</box>")
  | .grid n cs =>
      match renderCList cs with
      | .error e => .error e
      | .ok b => .ok ("<grid columns=" ++ toString n ++ ">" ++ b ++ "</grid>")
  | .table sp => .ok (tableHtml sp)
  | .text s esc => .ok (if esc then "<p>\n" ++ escapeHtml s ++ "\n</p>" else s)
  | .chartGroup cs => (renderGroupMembers cs).map (fun _ => figHtml)
  | .contentBase => .error (.exception ("Unknown content type: " ++ "Content"))
  | .chartBase _ _ _ => .error (.exception "Unknown chart type")
  | .lineChart sp => (renderLineChart sp).map (fun _ => figHtml)
  | .barChart sp => (renderBarChart sp).map (fun _ => figHtml)
  | .comboChart sp bs ls => (renderComboChart sp bs ls).map (fun _ => figHtml)
  | .candlestickChart sp d => (renderCandlestick sp d).map (fun _ => figHtml)

/-- Render the children of a container in order, concatenating the
fragments; the first error propagates. -/
def renderCList : CList → Except PyError String
  | .nil => .ok ""
  | .cons c cs =>
      match renderContent c with
      | .error e => .error e
      | .ok h =>
        match renderCList cs with
        | .error e => .error e
        | .ok rest => .ok (h ++ rest)

end

/-- The tree as it stands after HtmlEngine.render returns (html_engine.py
lines 47-69): update_levels is called exactly when the root is a Report,
and nothing else in the engine assigns to any field of any tree node. -/
def renderedTree : Content → Content
  | .report t l cs => updateLevels (.report t l cs)
  | c => c

/-- The output phase of HtmlEngine.render, reading the (already
level-updated) tree: a Report goes through the report template, which is
modelled from the spec as dispatching on the report through the render
helper; any other root is rendered by _render with the styles prepended. -/
def engineOutput : Content → Except PyError String
  | .report t l cs => renderContent (.report t l cs)
  | c => (renderContent c).map (fun s => stylesHtml ++ "\n" ++ s)

/-- HtmlEngine.render: the level update runs to completion first, then the
output phase reads the updated tree. -/
def engineRender (c : Content) : Except PyError String :=
  engineOutput (renderedTree c)

/-- Whether an Except value is a success. -/
def isOkE {ε α : Type} : Except ε α → Bool
  | .ok _ => true
  | .error _ => false

/-- The DataSeries invariant named by the spec: at least one of line and
markers is set. -/
def seriesOk (s : DataSeries) : Bool := s.line || s.markers

/-- Spec color policy, written from the spec wording for comparison with
the renderer loops: palette colors are drawn in round-robin order in
series-declaration order, a series with an explicit color keeps it and
does not advance the cursor. -/
def specAssignColors : List DataSeries → Nat → List String
  | [], _ => []
  | s :: r, k =>
    match s.color with
    | some c => c :: specAssignColors r k
    | none => paletteColor k :: specAssignColors r (k + 1)

/-- Number of series without an explicit color (the palette slots a list
of series consumes). -/
def countAuto : List DataSeries → Nat
  | [] => 0
  | s :: r => (if s.color.isNone then 1 else 0) + countAuto r

/-- n consecutive palette colors starting at cursor k. -/
def paletteRun : Nat → Nat → List String
  | _, 0 => []
  | k, n + 1 => paletteColor k :: paletteRun (k + 1) n

/-- The legend labels a series list contributes, in order. -/
def titlesOf : List DataSeries → List String
  | [] => []
  | s :: r => entryOf s ++ titlesOf r

/-- Legend visibility after _render_line_chart, as a function of the
series list: the legend ends up hidden exactly when the chart has at most
one series and some series carries a truthy title (so that a legend
exists to hide). -/
def legendVisSpec (series : List DataSeries) : Bool :=
  !(decide (series.length ≤ 1) && series.any (fun s => truthyStr s.title))

/-- Legend location after _render_line_chart, as a function of the series
list: bottom_right exactly when the chart has at least two series, some
series carries a truthy title (so a legend object exists), and the first
series trends upward. -/
def legendLocSpec (series : List DataSeries) : String :=
  if decide (2 ≤ series.length) && series.any (fun s => truthyStr s.title) &&
      trendUpL series then "bottom_right"
  else "top_right"

/-- Concatenation of the pre-order traversals of a worklist (the closed
form of descLoop). -/
def flatPre : List Content → List Content
  | [] => []
  | c :: r => preorderRev c ++ flatPre r

/-- Counterexample input for the level claim: a Report holding a Grid
holding a Section.  The inner Section has one Section ancestor (the
Report) but update_levels never descends into the Grid. -/
def c1Tree : Content :=
  .report "r" 0 (.cons (.grid 1 (.cons (.sect "s" 0 "vertical" .nil) .nil)) .nil)

/-- Leaf content A for the traversal counterexample. -/
def c2A : Content := .text "A" true

/-- Leaf content B for the traversal counterexample. -/
def c2B : Content := .text "B" true

/-- Box(A, B): two leaves inserted in order A then B. -/
def c2Box : Content := .box "vertical" 0 (.cons c2A (.cons c2B .nil))

/-- Grid holding one leaf: descendants does not descend into Grid. -/
def c2Grid : Content := .grid 1 (.cons c2A .nil)

/-- Line chart with two series, the first titled and trending upward, the
second untitled: exactly one titled series. -/
def c3Chart : XYSpec :=
  { series :=
      [ { title := some "a", x := [.num 0, .num 1], y := [0, 1] },
        { x := [.num 0, .num 1], y := [0, 0] } ] }

/-- Two combo line series, the first with an explicit color. -/
def c4Lines : List DataSeries :=
  [ { title := some "L1", color := some "red" },
    { title := some "L2" } ]

/-- Chart shell for the combo color counterexample. -/
def c4Spec : XYSpec := {}

/-- A line chart holding one series violating the line/markers invariant. -/
def c5Chart : XYSpec :=
  { series := [ { line := false, markers := false } ] }

/-- A bar chart holding one titled series violating the line/markers
invariant: the bar renderer never checks it. -/
def c5BarChart : XYSpec :=
  { series := [ { title := some "a", line := false, markers := false } ] }

/-- A value of the base Chart type: mapped by no chart renderer. -/
def c6Chart : Content := .chartBase none [] ChartSize.medium

/-- Chart shell with an empty series list (all fields default). -/
def c7Spec : XYSpec := {}

/-- Empty OHLC data block. -/
def c7Frame : OHLCFrame := {}

theorem titlesOf_isEmpty (ss : List DataSeries) :
    (titlesOf ss).isEmpty = !(ss.any fun s => truthyStr s.title) := by
  induction ss with
  | nil => rfl
  | cons s r ih =>
      cases h : truthyStr s.title with
      | true => simp [titlesOf, entryOf, h, List.any_cons]
      | false => simp [titlesOf, entryOf, h, List.any_cons, ih]

theorem processSeries_ok : ∀ (ss : List DataSeries) (k : Nat),
    ss.all seriesOk = true →
    processSeries ss k = .ok (k + countAuto ss, specAssignColors ss k, titlesOf ss)
  | [], k, _ => by simp [processSeries, countAuto, specAssignColors, titlesOf]
  | s :: r, k, h => by
      rw [List.all_cons, Bool.and_eq_true] at h
      have h1 : (s.line || s.markers) = true := h.1
      cases hc : s.color with
      | some c =>
          simp [processSeries, hc, h1, processSeries_ok r k h.2, countAuto,
            specAssignColors, titlesOf]
      | none =>
          simp [processSeries, hc, h1, processSeries_ok r (k + 1) h.2, countAuto,
            specAssignColors, titlesOf]
          omega

theorem processSeries_err : ∀ (ss : List DataSeries) (k : Nat),
    ss.all seriesOk = false →
    processSeries ss k = .error .assertionError
  | [], _, h => by simp [List.all_nil] at h
  | s :: r, k, h => by
      rw [List.all_cons] at h
      cases h1 : (s.line || s.markers) with
      | false => simp [processSeries, h1]
      | true =>
          have h2 : r.all seriesOk = false := by
            simpa [seriesOk, h1] using h
          cases hc : s.color with
          | some c => simp [processSeries, hc, h1, processSeries_err r k h2]
          | none => simp [processSeries, hc, h1, processSeries_err r (k + 1) h2]

theorem processBarSeries_eq : ∀ (ss : List DataSeries) (k : Nat),
    processBarSeries ss k = (k + countAuto ss, specAssignColors ss k, titlesOf ss)
  | [], k => by simp [processBarSeries, countAuto, specAssignColors, titlesOf]
  | s :: r, k => by
      cases hc : s.color with
      | some c =>
          simp [processBarSeries, hc, processBarSeries_eq r k, countAuto,
            specAssignColors, titlesOf]
      | none =>
          simp [processBarSeries, hc, processBarSeries_eq r (k + 1), countAuto,
            specAssignColors, titlesOf]
          omega

theorem processComboLines_eq : ∀ (ss : List DataSeries) (k : Nat),
    processComboLines ss k = (paletteRun k ss.length, titlesOf ss)
  | [], k => by simp [processComboLines, paletteRun, titlesOf]
  | s :: r, k => by
      simp [processComboLines, processComboLines_eq r (k + 1), paletteRun, titlesOf]

theorem lineLegendStep_colors (series : List DataSeries) (fig : LineFigure) :
    (lineLegendStep series fig).seriesColors = fig.seriesColors := by
  unfold lineLegendStep
  split
  · rfl
  · split
    · split
      · rfl
      · rfl
    · rfl

theorem lineLegendStep_fields (series : List DataSeries) (fig : LineFigure)
    (hE : fig.legendEntries = titlesOf series)
    (hV : fig.legendVisible = true) (hL : fig.legendLocation = "top_right") :
    (lineLegendStep series fig).legendVisible = legendVisSpec series ∧
    (lineLegendStep series fig).legendLocation = legendLocSpec series := by
  have hemp : fig.legendEntries.isEmpty = !(series.any fun s => truthyStr s.title) := by
    rw [hE]; exact titlesOf_isEmpty series
  unfold lineLegendStep legendVisSpec legendLocSpec
  cases hT : series.any (fun s => truthyStr s.title) with
  | true =>
      have he : fig.legendEntries.isEmpty = false := by rw [hemp, hT]; rfl
      by_cases hlen : series.length ≤ 1
      · have h2 : ¬ (2 ≤ series.length) := by omega
        simp [hlen, he, hT, h2, hL]
      · have h2 : 2 ≤ series.length := by omega
        have hS : series.any (fun s => s.title.isSome) = true := by
          rcases List.any_eq_true.mp hT with ⟨s, hs, hp⟩
          refine List.any_eq_true.mpr ⟨s, hs, ?_⟩
          cases ht2 : s.title with
          | none => rw [ht2] at hp; simp [truthyStr] at hp
          | some t => rfl
        cases htr : trendUpL series with
        | true => simp [hlen, he, hT, h2, hS, htr, hV]
        | false => simp [hlen, he, hT, h2, hS, htr, hV, hL]
  | false =>
      have he : fig.legendEntries.isEmpty = true := by rw [hemp, hT]; rfl
      cases hS : series.any (fun s => s.title.isSome) with
      | true => simp [he, hT, hS, hV, hL]
      | false => simp [he, hT, hS, hV, hL]

mutual

theorem stripLevels_assign : ∀ (c : Content) (l : Nat),
    stripLevels (assignLevels c l) = stripLevels c
  | .contentBase, _ => rfl
  | .box o s cs, l => by
      simp [assignLevels, stripLevels, stripLevelsList_assignList cs l]
  | .grid n cs, _ => rfl
  | .sect t lv o cs, l => by
      simp [assignLevels, stripLevels, stripLevelsList_assignList cs (l + 1)]
  | .report t lv cs, l => by
      simp [assignLevels, stripLevels, stripLevelsList_assignList cs (l + 1)]
  | .table sp, _ => rfl
  | .text s e, _ => rfl
  | .chartBase t ss sz, _ => rfl
  | .lineChart sp, _ => rfl
  | .barChart sp, _ => rfl
  | .comboChart sp bs ls, _ => rfl
  | .candlestickChart sp d, _ => rfl
  | .chartGroup cs, _ => rfl

theorem stripLevelsList_assignList : ∀ (cs : CList) (l : Nat),
    stripLevelsList (assignLevelsList cs l) = stripLevelsList cs
  | .nil, _ => rfl
  | .cons c cs, l => by
      simp [assignLevelsList, stripLevelsList, stripLevels_assign c l,
        stripLevelsList_assignList cs l]

end

mutual

theorem assignLevels_idem : ∀ (c : Content) (l : Nat),
    assignLevels (assignLevels c l) l = assignLevels c l
  | .contentBase, _ => rfl
  | .box o s cs, l => by
      simp [assignLevels, assignLevelsList_idem cs l]
  | .grid n cs, _ => rfl
  | .sect t lv o cs, l => by
      simp [assignLevels, assignLevelsList_idem cs (l + 1)]
  | .report t lv cs, l => by
      simp [assignLevels, assignLevelsList_idem cs (l + 1)]
  | .table sp, _ => rfl
  | .text s e, _ => rfl
  | .chartBase t ss sz, _ => rfl
  | .lineChart sp, _ => rfl
  | .barChart sp, _ => rfl
  | .comboChart sp bs ls, _ => rfl
  | .candlestickChart sp d, _ => rfl
  | .chartGroup cs, _ => rfl

theorem assignLevelsList_idem : ∀ (cs : CList) (l : Nat),
    assignLevelsList (assignLevelsList cs l) l = assignLevelsList cs l
  | .nil, _ => rfl
  | .cons c cs, l => by
      simp [assignLevelsList, assignLevels_idem c l, assignLevelsList_idem cs l]

end

mutual

theorem assign_box_depth : ∀ (c : Content) (l : Nat),
    levelsAtBoxDepth (assignLevels c l) l = true
  | .contentBase, _ => rfl
  | .box o s cs, l => by
      simp [assignLevels, levelsAtBoxDepth, assignList_box_depth cs l]
  | .grid n cs, _ => rfl
  | .sect t lv o cs, l => by
      simp [assignLevels, levelsAtBoxDepth, assignList_box_depth cs (l + 1)]
  | .report t lv cs, l => by
      simp [assignLevels, levelsAtBoxDepth, assignList_box_depth cs (l + 1)]
  | .table sp, _ => rfl
  | .text s e, _ => rfl
  | .chartBase t ss sz, _ => rfl
  | .lineChart sp, _ => rfl
  | .barChart sp, _ => rfl
  | .comboChart sp bs ls, _ => rfl
  | .candlestickChart sp d, _ => rfl
  | .chartGroup cs, _ => rfl

theorem assignList_box_depth : ∀ (cs : CList) (l : Nat),
    levelsAtBoxDepthList (assignLevelsList cs l) l = true
  | .nil, _ => rfl
  | .cons c cs, l => by
      simp [assignLevelsList, levelsAtBoxDepthList, assign_box_depth c l,
        assignList_box_depth cs l]

end

theorem flatPre_append (a b : List Content) :
    flatPre (a ++ b) = flatPre a ++ flatPre b := by
  induction a with
  | nil => rfl
  | cons c r ih => simp [flatPre, ih]

theorem flatPre_revToList : ∀ (cs : CList),
    flatPre cs.toList.reverse = preorderRTL cs
  | .nil => rfl
  | .cons c cs => by
      simp [CList.toList, List.reverse_cons, flatPre_append, flatPre,
        preorderRTL, flatPre_revToList cs]

theorem preorderRev_eq_cons (c : Content) :
    preorderRev c = c :: preorderRTL (boxChildren c) := by
  cases c <;> rfl

theorem descLoop_eq (todo : List Content) : descLoop todo = flatPre todo := by
  induction todo using descLoop.induct with
  | case1 => rw [descLoop]; rfl
  | case2 c rest ih =>
      rw [descLoop, ih, flatPre_append, flatPre_revToList]
      simp [flatPre, preorderRev_eq_cons]

theorem descendants_preorder (c : Content) : descendants c = preorderRev c := by
  unfold descendants
  rw [descLoop_eq]
  simp [flatPre]

mutual

theorem preorderRev_length : ∀ (c : Content), (preorderRev c).length = boxSize c
  | .contentBase => rfl
  | .box o s cs => by
      simp [preorderRev, boxSize, preorderRTL_length cs]
      omega
  | .grid n cs => rfl
  | .sect t lv o cs => by
      simp [preorderRev, boxSize, preorderRTL_length cs]
      omega
  | .report t lv cs => by
      simp [preorderRev, boxSize, preorderRTL_length cs]
      omega
  | .table sp => rfl
  | .text s e => rfl
  | .chartBase t ss sz => rfl
  | .lineChart sp => rfl
  | .barChart sp => rfl
  | .comboChart sp bs ls => rfl
  | .candlestickChart sp d => rfl
  | .chartGroup cs => rfl

theorem preorderRTL_length : ∀ (cs : CList),
    (preorderRTL cs).length = boxSizeList cs
  | .nil => rfl
  | .cons c cs => by
      simp [preorderRTL, List.length_append, preorderRev_length c,
        preorderRTL_length cs, boxSizeList]
      omega

end

theorem zipWith_map_same {α β γ : Type} (f : β → β → γ) (g h : α → β)
    (l : List α) :
    List.zipWith f (l.map g) (l.map h) = l.map (fun a => f (g a) (h a)) := by
  induction l with
  | nil => rfl
  | cons a r ih => simp [ih]

theorem zipWith_mask {α : Type} (p : α → Bool) (A B : String) (l : List α) :
    List.zipWith (fun g c => if g then A else c)
      (l.map p) (List.replicate l.length B) =
    l.map (fun a => if p a then A else B) := by
  induction l with
  | nil => rfl
  | cons a r ih =>
      simp only [List.map_cons, List.length_cons, List.replicate_succ,
        List.zipWith_cons_cons, ih]

/-- C1 (amended): after update_levels, the root has level 0 and every
Section reachable from the root through Box-family containers carries a
level equal to its Section-ancestor depth, regardless of sibling order;
subtrees below a Grid are not visited and keep their previous levels. -/
theorem C1_update_levels_box_depth (c : Content) :
    levelsAtBoxDepth (updateLevels c) 0 = true :=
  assign_box_depth c 0

/-- C1 counterexample: in Report(Grid(Section)), the inner Section has one
Section ancestor but update_levels leaves its level at 0, so the claimed
property (levels equal Section-ancestor depth through every container)
fails after update_levels. -/
theorem C1_counterexample :
    levelsAtSectionDepth (updateLevels c1Tree) 0 = false := by decide

/-- C2 (amended): descendants yields the container itself and every node
reachable through Box-family containers exactly once, in depth-first
pre-order with siblings visited in reverse insertion order (each parent
before its descendants, the last-inserted child subtree first); it does
not descend into Grid children. -/
theorem C2_descendants_traversal (c : Content) :
    descendants c = preorderRev c ∧ (descendants c).length = boxSize c :=
  ⟨descendants_preorder c, by
    rw [descendants_preorder c]; exact preorderRev_length c⟩

/-- C2 counterexample: descendants of Box(A, B) yields B before A, not the
insertion order, and descendants of a Grid holding A never yields A even
though A is reachable from the container. -/
theorem C2_counterexample :
    descendants c2Box = [c2Box, c2B, c2A] ∧ c2A ≠ c2B ∧
    descendants c2Grid = [c2Grid] := by
  refine ⟨?_, ?_, ?_⟩
  · rw [descendants_preorder c2Box]; rfl
  · intro h
    rw [c2A, c2B] at h
    injection h with h1 _
    exact absurd h1 (by decide)
  · rw [descendants_preorder c2Grid]; rfl

/-- C3 (amended): for a line chart, the legend is hidden exactly when the
chart has at most one series and a legend exists (some series has a
nonempty title); the legend location is bottom_right exactly when the
chart has at least two series, a legend exists, and the first series has
a nonempty y with its last value exceeding its first; otherwise the
default location is used. -/
theorem C3_line_chart_legend (obj : XYSpec) :
    (renderLineChart obj).map (fun f => (f.legendVisible, f.legendLocation)) =
    (renderLineChart obj).map
      (fun _ => (legendVisSpec obj.series, legendLocSpec obj.series)) := by
  cases hsz : chartSize obj.size with
  | error e => simp [renderLineChart, hsz, Except.map]
  | ok wh =>
    obtain ⟨w, h⟩ := wh
    cases hann : processAnnots obj.annots with
    | error e => simp [renderLineChart, hsz, hann, Except.map]
    | ok slopes =>
      cases hall : obj.series.all seriesOk with
      | false =>
          simp [renderLineChart, hsz, hann,
            processSeries_err obj.series 0 hall, Except.map]
      | true =>
          have hfields := lineLegendStep_fields obj.series
            { title := obj.title, width := w, height := h,
              xFactors := lineFactors obj, slopes := slopes,
              seriesColors := specAssignColors obj.series 0,
              legendEntries := titlesOf obj.series,
              xAxisLabel := axisOpt obj.xAxisTitle,
              yAxisLabel := axisOpt obj.yAxisTitle } rfl rfl rfl
          simp only [renderLineChart, hsz, hann,
            processSeries_ok obj.series 0 hall, Except.map]
          exact congrArg Except.ok (Prod.ext hfields.1 hfields.2)

/-- C3 counterexample: a line chart with two series of which exactly one
is titled shows the legend (placed bottom right because the first series
trends upward), although the claim requires a chart with at most one
titled series to suppress its legend entirely. -/
theorem C3_counterexample :
    c3Chart.series.countP (fun s => s.title.isSome) = 1 ∧
    (renderLineChart c3Chart).map (fun f => (f.legendVisible, f.legendLocation)) =
      .ok (true, "bottom_right") := ⟨rfl, rfl⟩

/-- C4 (amended): line charts, bar charts and the bar series of combo
charts draw palette colors in round-robin order in declaration order,
where a series with an explicit color keeps it and does not advance the
cursor; the line series of a combo chart instead always consume the next
palette color (continuing the cursor after the bar series), ignoring any
explicit color. -/
theorem C4_color_policy (o : XYSpec) (bars lines : List DataSeries) :
    ((renderLineChart o).map (fun f => f.seriesColors) =
      (renderLineChart o).map (fun _ => specAssignColors o.series 0)) ∧
    ((renderBarChart o).map (fun f => f.seriesColors) =
      (renderBarChart o).map (fun _ => specAssignColors o.series 0)) ∧
    ((renderComboChart o bars lines).map (fun f => (f.barColors, f.lineColors)) =
      (renderComboChart o bars lines).map
        (fun _ => (specAssignColors bars 0,
                   paletteRun (countAuto bars) lines.length))) := by
  refine ⟨?_, ?_, ?_⟩
  · cases hsz : chartSize o.size with
    | error e => simp [renderLineChart, hsz, Except.map]
    | ok wh =>
      obtain ⟨w, h⟩ := wh
      cases hann : processAnnots o.annots with
      | error e => simp [renderLineChart, hsz, hann, Except.map]
      | ok slopes =>
        cases hall : o.series.all seriesOk with
        | false =>
            simp [renderLineChart, hsz, hann,
              processSeries_err o.series 0 hall, Except.map]
        | true =>
            simp [renderLineChart, hsz, hann, processSeries_ok o.series 0 hall,
              Except.map, lineLegendStep_colors]
  · cases hsz : chartSize o.size with
    | error e => simp [renderBarChart, hsz, Except.map]
    | ok wh =>
      obtain ⟨w, h⟩ := wh
      simp only [renderBarChart, hsz, processBarSeries_eq o.series 0]
      by_cases hlen : o.series.length ≤ 1
      · cases hte : (titlesOf o.series).isEmpty with
        | true => simp [hlen, hte, Except.map]
        | false => simp [hlen, hte, Except.map]
      · simp [hlen, Except.map]
  · cases hsz : chartSize o.size with
    | error e => simp [renderComboChart, hsz, Except.map]
    | ok wh =>
      obtain ⟨w, h⟩ := wh
      simp only [renderComboChart, hsz, processBarSeries_eq,
        processComboLines_eq, Nat.zero_add]
      by_cases hlen : lines.length ≤ 1 ∧ bars.length ≤ 1
      · by_cases hemp : titlesOf bars = [] ∧ titlesOf lines = []
        · simp [hlen.1, hlen.2, hemp, Except.map]
        · simp [hlen.1, hlen.2, hemp, Except.map]
      · rcases Decidable.not_and_iff_or_not.mp hlen with hl | hb
        · simp [hl, processComboLines_eq, Except.map]
        · simp [hb, processComboLines_eq, Except.map]

/-- C4 counterexample: a combo chart whose first line series has the
explicit color red still draws it in the first palette color, and the
second line series receives the second palette color, so an explicit
color on a combo line series is not kept and still advances the palette
cursor. -/
theorem C4_counterexample :
    (renderComboChart c4Spec [] c4Lines).map (fun f => f.lineColors) =
      .ok ["#1f77b4", "#ff7f0e"] ∧
    (c4Lines.headD default).color = some "red" ∧
    ("#1f77b4" : String) ≠ "red" :=
  ⟨rfl, rfl, by decide⟩

/-- C5 (amended): rendering a LineChart that contains a series with
line=false and markers=false fails at chart-render time; when the figure
setup itself succeeds (a known size hint and slope-only annotations) the
failure is the assertion failure AssertionError raised by
`assert s.line or s.markers`; construction does not validate. -/
theorem C5_line_chart_assert (obj : XYSpec)
    (hbad : obj.series.all seriesOk = false) :
    isOkE (renderLineChart obj) = false ∧
    (isOkE (chartSize obj.size) = true →
      isOkE (processAnnots obj.annots) = true →
      renderLineChart obj = .error .assertionError) := by
  constructor
  · cases hsz : chartSize obj.size with
    | error e => simp [renderLineChart, hsz, isOkE]
    | ok wh =>
      obtain ⟨w, h⟩ := wh
      cases hann : processAnnots obj.annots with
      | error e => simp [renderLineChart, hsz, hann, isOkE]
      | ok slopes =>
          simp [renderLineChart, hsz, hann,
            processSeries_err obj.series 0 hbad, isOkE]
  · intro h1 h2
    cases hsz : chartSize obj.size with
    | error e => rw [hsz] at h1; simp [isOkE] at h1
    | ok wh =>
      obtain ⟨w, h⟩ := wh
      cases hann : processAnnots obj.annots with
      | error e => rw [hann] at h2; simp [isOkE] at h2
      | ok slopes =>
          simp [renderLineChart, hsz, hann,
            processSeries_err obj.series 0 hbad]

/-- C5 witness: the amended theorem applied to the concrete invalid line
chart. -/
theorem C5_witness : renderLineChart c5Chart = .error .assertionError :=
  (C5_line_chart_assert c5Chart (by decide)).2 (by decide) (by decide)

/-- C5 counterexample: the invalid series makes the line chart raise
AssertionError, whose class name is not InvalidSeriesError (no such class
exists in the code), and a bar chart containing the same invalid series
renders without any error. -/
theorem C5_counterexample :
    renderLineChart c5Chart = .error .assertionError ∧
    PyError.className .assertionError ≠ "InvalidSeriesError" ∧
    isOkE (renderBarChart c5BarChart) = true :=
  ⟨rfl, by decide, rfl⟩

/-- C6 (amended): a content value of the unmapped base Content type fails
with an Exception whose message is Unknown content type followed by the
type name; a value of an unmapped Chart type instead fails with the
Exception message Unknown chart type, which does not name the variant. -/
theorem C6_unknown_dispatch :
    renderContent .contentBase =
      .error (.exception ("Unknown content type: " ++ "Content")) ∧
    ∀ (t : Option String) (ss : List DataSeries) (sz : ChartSize),
      renderContent (.chartBase t ss sz) =
        .error (.exception "Unknown chart type") :=
  ⟨rfl, fun _ _ _ => rfl⟩

/-- C6 counterexample: dispatching on a bare Chart value (an unmapped
variant) raises the Unknown chart type Exception, not an error naming the
variant with the Unknown content type message. -/
theorem C6_counterexample :
    renderContent c6Chart = .error (.exception "Unknown chart type") ∧
    ("Unknown chart type" : String) ≠
      "Unknown content type: " ++ typeName c6Chart :=
  ⟨rfl, by decide⟩

/-- C7: with an empty series list a bar chart and a combo chart do not
render an empty-but-valid chart: both raise IndexError at the
fig.legend[0] access of the legend-suppression block, while a line chart
and a candlestick chart do render without error. -/
theorem C7_empty_series_crash :
    renderBarChart c7Spec = .error .indexError ∧
    renderComboChart c7Spec [] [] = .error .indexError ∧
    isOkE (renderLineChart c7Spec) = true ∧
    isOkE (renderCandlestick c7Spec c7Frame) = true :=
  ⟨rfl, rfl, rfl, rfl⟩

/-- C8: for every candlestick chart, each candle body spans from
min(open, close) to max(open, close) and is green exactly when
close >= open (red otherwise), the wick spans from high down to low, the
x positions are the dense indices 0..n-1, and the original time labels
feed only the axis tick formatter and the hover tooltip. -/
theorem C8_candlestick_geometry (obj : XYSpec) (data : OHLCFrame) :
    (renderCandlestick obj data).map
      (fun f => (f.xs, f.wickX, f.tops, f.bottoms, f.colors,
                 f.wickTop, f.wickBottom, f.tickLabels, f.tooltipTimes)) =
    (renderCandlestick obj data).map
      (fun _ => (List.range data.rows.length, List.range data.rows.length,
        data.rows.map (fun r => max r.opn r.close),
        data.rows.map (fun r => min r.opn r.close),
        data.rows.map (fun r => if r.opn ≤ r.close then "#00AA00" else "#FF0000"),
        data.rows.map (fun r => r.high), data.rows.map (fun r => r.low),
        data.labels, data.labels)) := by
  cases hsz : chartSize obj.size with
  | error e => simp [renderCandlestick, hsz, Except.map]
  | ok wh =>
    obtain ⟨w, h⟩ := wh
    cases hv : data.volume with
    | none =>
        simp [renderCandlestick, hsz, hv, Except.map, zipWith_map_same,
          zipWith_mask]
    | some vs =>
        simp only [renderCandlestick, hsz, hv]
        split <;> simp [Except.map, zipWith_map_same, zipWith_mask]

/-- C9: rendering changes nothing in the tree except Section levels (the
tree after a render differs from the input only in level fields, and only
when the root is a Report), and the level update completes before the
output phase reads the tree. -/
theorem C9_render_frame (c : Content) :
    stripLevels (renderedTree c) = stripLevels c ∧
    engineRender c = engineOutput (renderedTree c) := by
  refine ⟨?_, rfl⟩
  cases c
  case report t l cs => exact stripLevels_assign (.report t l cs) 0
  all_goals rfl

/-- C10: update_levels is idempotent: the level assignment depends only on
the tree structure, so a second run reproduces the first. -/
theorem C10_update_levels_idempotent (c : Content) :
    updateLevels (updateLevels c) = updateLevels c :=
  assignLevels_idem c 0

end Reports
